import Mathlib

/-!
Verification of the retail_forecasting_model_deployment repository.

A shallow embedding of the prediction service (src/service.py), of the
streamlit dashboard client (src/streamlit_ui/dashboard_b.py) and of the
gradio client (src/gradio_ui/app.py), together with theorems settling the
behavioural claims about them.

Modelling conventions:
- pandas DataFrames become lists of records; an uploaded CSV file becomes
  its list of lines.
- The numeric type of a model prediction is Int: the service never computes
  with a prediction, it only moves the numbers around, so the value type is
  irrelevant to every property below.
- The unseeded fastai RandomSplitter drawn inside preprocess is a per-call
  input (the list of training indices it selects); every other part of a
  request is a pure function of its inputs.
- Fallible steps (a CSV lacking a required column, a client-side parse
  failure) return Option.
-/

/-- Names of the four CSV columns the service consumes. -/
def dateCol : String := "date"

/-- Column name of the country field. -/
def countryCol : String := "country"

/-- Column name of the store field. -/
def storeCol : String := "store"

/-- Column name of the product field. -/
def productCol : String := "product"

/-- The empty string, used as a getD default. -/
def emptyStr : String := ""

/-- One raw inference observation: the spec's SalesRecord, the rows the two
endpoints of src/service.py receive. -/
structure SalesRecord where
  date : String
  country : String
  store : String
  product : String
deriving DecidableEq, Repr

/-- A SalesRecord whose fields are all empty, used as a getD default. -/
def defaultRec : SalesRecord :=
  { date := emptyStr, country := emptyStr, store := emptyStr, product := emptyStr }

/-- One row of data/train.csv: the four feature columns plus the num_sold
target, which may be missing (service.py line 44 drops such rows). -/
structure TrainRow where
  date : String
  country : String
  store : String
  product : String
  num_sold : Option Int
deriving DecidableEq, Repr

/-- The JSON body both endpoints return (service.py lines 88 and 127): a
num_sold list paired with a date list. -/
structure PredictionResult where
  num_sold : List Int
  date : List String
deriving DecidableEq, Repr

/-- The file reads a request performs (spec section 4.1 calls the re-read of
the training data a side effect of every call). -/
inductive Effect where
  | readTrainCsv
  | readTestCsv
  | readUploadedCsv
deriving DecidableEq, Repr

/-- The storage the service reads on every call: the contents of
data/train.csv and data/test.csv (service.py lines 42-43). Neither file is
part of the repository, so both are parameters of the embedding. -/
structure Storage where
  train : List TrainRow
  test : List SalesRecord

/-- The in-memory state of StickerSalesRegressor: the loaded model artifact.
The artifact itself is not in the repository; per the spec it is an
immutable regressor, embedded as a function from an encoded feature row to
a predicted number. -/
structure ServiceState where
  model : List Nat → Int

/-- StickerSalesRegressor.__init__ (service.py lines 37-38): the model is
loaded once from the model store when the service starts. -/
def initService (artifact : List Nat → Int) : ServiceState :=
  { model := artifact }

/-- The '#na#' placeholder fastai's Categorify puts at index 0 of every
vocabulary. -/
def naTok : String := "#na#"

/-- First-occurrence deduplication with an accumulator of already seen
values (structural recursion, evaluable by the kernel). -/
def uniqAux : List String → List String → List String
  | [], _ => []
  | x :: xs, seen => if x ∈ seen then uniqAux xs seen else x :: uniqAux xs (x :: seen)

/-- The distinct values of a column, first occurrence first. -/
def uniqVals (l : List String) : List String :=
  uniqAux l []

/-- Vocabulary of one categorical column as fastai's Categorify fits it on
the training split: the '#na#' slot followed by the distinct values seen in
the column. (fastai sorts the distinct values; the order of the vocabulary
is irrelevant to every property below, so first-occurrence order is used.) -/
def mkVocab (vals : List String) : List String :=
  naTok :: uniqVals vals

/-- Categorical code of a value: its index in the vocabulary, 0 (the '#na#'
slot) when the value was not seen at fit time. -/
def catCode (voc : List String) (v : String) : Nat :=
  match voc.findIdx? (· == v) with
  | some i => i
  | none => 0

/-- The fitted categorical encoding of the four feature columns. -/
structure Encoder where
  dateVocab : List String
  countryVocab : List String
  storeVocab : List String
  productVocab : List String
deriving DecidableEq, Repr

/-- Fitting of the fastai preprocessing pipeline (service.py lines 42-52):
train.csv is read, rows with a missing num_sold are dropped, and the procs
are fitted on the rows selected by the training split that the unseeded
RandomSplitter draws for this call. All four feature columns are strings,
so cont_cat_split yields no continuous columns and FillMissing/Normalize
have nothing to act on; only the Categorify vocabularies remain, and they
are built from the training-split rows only. -/
def fitEncoder (st : Storage) (split : List Nat) : Encoder :=
  let train_df := st.train.filter (fun r => r.num_sold.isSome)
  let sub := split.filterMap (fun i => train_df.get? i)
  { dateVocab := mkVocab (sub.map (·.date))
    countryVocab := mkVocab (sub.map (·.country))
    storeVocab := mkVocab (sub.map (·.store))
    productVocab := mkVocab (sub.map (·.product)) }

/-- Encoding of one input row by the fitted pipeline (what appears in
dls.test_dl(data).xs for that row): the categorical code of each field. -/
def encodeRow (e : Encoder) (r : SalesRecord) : List Nat :=
  [catCode e.dateVocab r.date, catCode e.countryVocab r.country,
   catCode e.storeVocab r.store, catCode e.productVocab r.product]

/-- StickerSalesRegressor.preprocess (service.py lines 40-56): reads
data/train.csv and data/test.csv from storage (test_df is read and never
used), fits the encoding on this call's random training split, encodes the
input rows one to one in their order (a fastai test_dl neither drops nor
reorders rows), and returns the encoded rows together with the untouched
input, recording the reads performed. -/
def preprocess (st : Storage) (split : List Nat) (data : List SalesRecord) :
    (List (List Nat) × List SalesRecord) × List Effect :=
  let e := fitEncoder st split
  ((data.map (encodeRow e), data), [Effect.readTrainCsv, Effect.readTestCsv])

/-- Modelled from the spec: the XGBoost model artifact is not part of the
repository; per the spec it is a previously trained regressor producing one
prediction per input row, order-preserving (spec sections 2 and 4.3 and the
glossary entry on batch prediction). -/
def boosterPredict (model : List Nat → Int) (xs : List (List Nat)) : List Int :=
  xs.map model

/-- StickerSalesRegressor.predict (service.py lines 74-88): preprocess the
input, run the model on the encoded rows, pull the date column out of the
untouched original data, and return the num_sold list paired with the date
list, together with the (unchanged) service state and the reads performed. -/
def predict (s : ServiceState) (st : Storage) (split : List Nat)
    (data : List SalesRecord) : PredictionResult × ServiceState × List Effect :=
  let pre := preprocess st split data
  let predictions := boosterPredict s.model pre.1.1
  let dates := pre.1.2.map (·.date)
  ({ num_sold := predictions, date := dates }, s, pre.2)

/-- Splitting of a list of characters at every occurrence of a separator
(structural recursion; the kernel evaluates it on literals). -/
def splitOnChar (sep : Char) : List Char → List (List Char)
  | [] => [[]]
  | c :: cs =>
    match splitOnChar sep cs with
    | [] => [[c]]
    | f :: fs => if c = sep then [] :: f :: fs else (c :: f) :: fs

/-- Splitting of one CSV line on commas (pandas' default separator). -/
def splitComma (s : String) : List String :=
  (splitOnChar ',' s.data).map String.mk

/-- pd.read_csv of the uploaded file (service.py line 117), restricted to
what the service then uses: the file is its list of lines, the first line
the header; each data row yields one SalesRecord, fields located by the
header's column positions. Parsing fails (the request errors) when a
required column is absent. -/
def parseCsv (lines : List String) : Option (List SalesRecord) :=
  match lines with
  | [] => none
  | header :: rows =>
    let cols := splitComma header
    if dateCol ∈ cols ∧ countryCol ∈ cols ∧ storeCol ∈ cols ∧ productCol ∈ cols then
      some (rows.map (fun l =>
        let fs := splitComma l
        { date := fs.getD (cols.findIdx (· == dateCol)) emptyStr
          country := fs.getD (cols.findIdx (· == countryCol)) emptyStr
          store := fs.getD (cols.findIdx (· == storeCol)) emptyStr
          product := fs.getD (cols.findIdx (· == productCol)) emptyStr }))
    else none

/-- StickerSalesRegressor.predict_csv (service.py lines 115-127): read the
uploaded CSV, preprocess it, run the model, and pair the predictions with
the dates of the original rows; none when the CSV lacks a required column. -/
def predict_csv (s : ServiceState) (st : Storage) (split : List Nat)
    (csv : List String) : Option (PredictionResult × ServiceState × List Effect) :=
  match parseCsv csv with
  | none => none
  | some csv_data =>
    let pre := preprocess st split csv_data
    let prediction_csv := boosterPredict s.model pre.1.1
    let dates := pre.1.2.map (·.date)
    some ({ num_sold := prediction_csv, date := dates }, s,
          Effect.readUploadedCsv :: pre.2)

/-- What response.json() yields inside dashboard_b.load_and_predict_data:
either the body is not JSON (json.JSONDecodeError), or it parses to
something other than a list, or it is a list of predictions. A list element
is some n when pd.to_numeric can read it and none when it is non-numeric
(coerced to NaN). -/
inductive ParsedBody where
  | notJson
  | jsonNonList
  | jsonList (preds : List (Option Int))
deriving DecidableEq, Repr

/-- The outcome of the HTTP POST in load_and_predict_data: the request
itself failed (requests.exceptions.RequestException), the status code was
an error (raise_for_status), or a body came back. -/
inductive ApiOutcome where
  | requestFailed
  | statusError (code : Nat)
  | ok (body : ParsedBody)
deriving DecidableEq, Repr

/-- One row of the DataFrame the dashboard builds: the uploaded CSV row
plus the predicted_sales column (none is the null/NaN marker). -/
structure DashRow where
  date : String
  country : String
  store : String
  product : String
  predicted_sales : Option Int
deriving DecidableEq, Repr

/-- load_and_predict_data (src/streamlit_ui/dashboard_b.py lines 10-113),
the HTTP layer abstracted to its outcome and DataFrames to row lists: a
transport error, an HTTP error status, a JSON decode failure and a JSON
body that is not a list all return the empty DataFrame; when the number of
predictions differs from the number of uploaded rows the uploaded rows come
back with predicted_sales set to None (lines 66-72); otherwise each row is
paired with its prediction. -/
def load_and_predict_data (resp : ApiOutcome) (csvRows : List SalesRecord) :
    List DashRow :=
  match resp with
  | ApiOutcome.requestFailed => []
  | ApiOutcome.statusError _ => []
  | ApiOutcome.ok ParsedBody.notJson => []
  | ApiOutcome.ok ParsedBody.jsonNonList => []
  | ApiOutcome.ok (ParsedBody.jsonList preds) =>
    if preds.length ≠ csvRows.length then
      csvRows.map (fun r =>
        { date := r.date, country := r.country, store := r.store,
          product := r.product, predicted_sales := none })
    else
      (csvRows.zip preds).map (fun rp =>
        { date := rp.1.date, country := rp.1.country, store := rp.1.store,
          product := rp.1.product, predicted_sales := rp.2 })

/-- One row of the table the gradio client uploads, before cleaning. -/
structure RawRow where
  date : String
  country : String
  store : String
  product : String
deriving DecidableEq, Repr

/-- A RawRow whose fields are all empty, used as a getD default. -/
def defaultRaw : RawRow :=
  { date := emptyStr, country := emptyStr, store := emptyStr, product := emptyStr }

/-- The uploaded table of the gradio client: its column names and its rows. -/
structure RawTable where
  cols : List String
  rows : List RawRow
deriving DecidableEq, Repr

/-- Whitespace in the sense of str.strip. -/
def isWs (c : Char) : Bool :=
  c == ' ' || c == '\t' || c == '\n' || c == '\r'

/-- str.strip(): surrounding whitespace removed (character-level, so the
kernel evaluates it). -/
def myTrim (s : String) : String :=
  String.mk (((s.data.dropWhile isWs).reverse.dropWhile isWs).reverse)

/-- str.lower(): every character lowercased. -/
def myLower (s : String) : String :=
  String.mk (s.data.map Char.toLower)

/-- str.replace of the newline character by a space (the pattern is a
single character, so per-character replacement is exact). -/
def replaceNewline (s : String) : String :=
  String.mk (s.data.map (fun c => if c = '\n' then ' ' else c))

/-- The column-name cleaning of clean_data (app.py line 14): strip, then
lowercase. -/
def colClean (c : String) : String :=
  myLower (myTrim c)

/-- The string-column value cleaning of clean_data (app.py line 20):
newlines replaced by spaces, then stripped. -/
def cleanStr (s : String) : String :=
  myTrim (replaceNewline s)

/-- Modelled from the spec: pd.to_datetime's parsing of a date string is
outside the repository; the spec fixes the CSV date format to YYYY-MM-DD
(section 6), so a date is read as its dash-separated numeric triple. -/
def parseDate (s : String) : Nat × Nat × Nat :=
  match (splitOnChar '-' s.data).map (fun cs => (String.mk cs).toNat?) with
  | [some y, some m, some d] => (y, m, d)
  | _ => (1970, 1, 1)

/-- Left zero-padding to a given width (the padding strftime applies to
each field). -/
def padZeros (w : Nat) (n : Nat) : String :=
  let s := toString n
  String.mk (List.replicate (w - s.length) '0') ++ s

/-- strftime with the %Y-%m-%d format (app.py line 23). -/
def formatYMD : Nat × Nat × Nat → String
  | (y, m, d) => padZeros 4 y ++ "-" ++ padZeros 2 m ++ "-" ++ padZeros 2 d

/-- The per-row effect of clean_data once the country/store/product columns
are known to be present: date reformatted to YYYY-MM-DD, the three string
fields newline-replaced and stripped. -/
def cleanedRow (r : RawRow) : RawRow :=
  { date := formatYMD (parseDate r.date)
    country := cleanStr r.country
    store := cleanStr r.store
    product := cleanStr r.product }

/-- clean_data (src/gradio_ui/app.py lines 9-25): column names stripped and
lowercased; in each row the country/store/product values (for whichever of
those columns is present) have newlines replaced by spaces and are
stripped, and the date value is reparsed and reformatted to YYYY-MM-DD.
The unconditional access to the date column raises when the cleaned table
has no date column, embedded as none. -/
def clean_data (t : RawTable) : Option RawTable :=
  let cols := t.cols.map colClean
  let rows := t.rows.map (fun r =>
    { date := formatYMD (parseDate r.date)
      country := if countryCol ∈ cols then cleanStr r.country else r.country
      store := if storeCol ∈ cols then cleanStr r.store else r.store
      product := if productCol ∈ cols then cleanStr r.product else r.product })
  if dateCol ∈ cols then some { cols := cols, rows := rows } else none

/-- Concrete model artifact used by witnesses: it reports the date code of
the encoded row, so distinct encodings are observable in the output. -/
def wModel : List Nat → Int := fun l => Int.ofNat (l.headD 0)

/-- Concrete service state used by witnesses. -/
def wState : ServiceState := { model := wModel }

/-- Concrete storage used by witnesses: a two-row train.csv. -/
def wStorage : Storage :=
  { train := [{ date := "2017-01-01", country := "Canada",
                store := "Discount Stickers", product := "Kaggle",
                num_sold := some 10 },
              { date := "2017-01-02", country := "Canada",
                store := "Discount Stickers", product := "Kaggle",
                num_sold := some 12 }]
    test := [] }

/-- Concrete uploaded CSV used by witnesses: header plus two data rows. -/
def wCsv : List String :=
  ["date,country,store,product",
   "2017-01-01,Canada,Discount Stickers,Kaggle",
   "2017-01-02,Canada,Discount Stickers,Holographic Goose"]

/-- The records wCsv parses to. -/
def wRecords : List SalesRecord :=
  [{ date := "2017-01-01", country := "Canada",
     store := "Discount Stickers", product := "Kaggle" },
   { date := "2017-01-02", country := "Canada",
     store := "Discount Stickers", product := "Holographic Goose" }]

/-- Concrete uploaded table used by the clean_data witness: unnormalized
column names, an embedded newline, surrounding whitespace, and an unpadded
date. -/
def wTable : RawTable :=
  { cols := [" Date", "Country ", "store", "Product"]
    rows := [{ date := "2017-1-1", country := "Ca\nnada",
               store := " Discount Stickers ", product := "Kaggle" }] }

/-- Storage of the C2 counterexample: two train rows with distinct dates,
both with num_sold present. -/
def cexStorage : Storage :=
  { train := [{ date := "2017-01-01", country := "Canada",
                store := "Discount Stickers", product := "Kaggle",
                num_sold := some 10 },
              { date := "2017-01-02", country := "Canada",
                store := "Discount Stickers", product := "Kaggle",
                num_sold := some 12 }]
    test := [] }

/-- CSV of the C2 counterexample: one data row whose date is the second
training date. -/
def cexCsv : List String :=
  ["date,country,store,product",
   "2017-01-02,Canada,Discount Stickers,Kaggle"]

/-- Helper: getD through a map, at an index below the length. -/
theorem getD_map_of_lt {α β : Type} (f : α → β) :
    ∀ (l : List α) (i : Nat), i < l.length →
      ∀ (d : α) (d' : β), (l.map f).getD i d' = f (l.getD i d)
  | [], i, h, _, _ => absurd h (Nat.not_lt_zero i)
  | _ :: _, 0, _, _, _ => rfl
  | _ :: l, i + 1, h, d, d' => getD_map_of_lt f l i (Nat.lt_of_succ_lt_succ h) d d'

/-- C1: for every batch of N valid SalesRecords submitted to predict_csv,
the result contains exactly N num_sold values and N date values, and the
i-th num_sold/date pair corresponds to the i-th input row: the i-th date is
the i-th row's date and the i-th num_sold is the model's prediction for the
i-th row's encoding. -/
theorem predict_csv_batch_shape (s : ServiceState) (st : Storage)
    (split : List Nat) (csv : List String) (records : List SalesRecord)
    (hp : parseCsv csv = some records) :
    ∃ out, predict_csv s st split csv = some out ∧
      out.1.num_sold.length = records.length ∧
      out.1.date.length = records.length ∧
      ∀ i, i < records.length →
        out.1.date.getD i emptyStr = (records.getD i defaultRec).date ∧
        out.1.num_sold.getD i 0 =
          s.model (encodeRow (fitEncoder st split) (records.getD i defaultRec)) := by
  refine ⟨({ num_sold := (records.map (encodeRow (fitEncoder st split))).map s.model,
             date := records.map (·.date) }, s,
           [Effect.readUploadedCsv, Effect.readTrainCsv, Effect.readTestCsv]), ?_, ?_, ?_, ?_⟩
  · simp [predict_csv, hp, preprocess, boosterPredict]
  · simp
  · simp
  · intro i hi
    constructor
    · exact getD_map_of_lt (fun r : SalesRecord => r.date) records i hi defaultRec emptyStr
    · rw [List.map_map]
      exact getD_map_of_lt (s.model ∘ encodeRow (fitEncoder st split)) records i hi defaultRec 0

/-- Witness for C1 at a concrete two-row CSV. -/
theorem predict_csv_batch_shape_witness :
    ∃ out, predict_csv wState wStorage [0, 1] wCsv = some out ∧
      out.1.num_sold.length = wRecords.length ∧
      out.1.date.length = wRecords.length ∧
      ∀ i, i < wRecords.length →
        out.1.date.getD i emptyStr = (wRecords.getD i defaultRec).date ∧
        out.1.num_sold.getD i 0 =
          wState.model (encodeRow (fitEncoder wStorage [0, 1]) (wRecords.getD i defaultRec)) :=
  predict_csv_batch_shape wState wStorage [0, 1] wCsv wRecords (by rfl)

/-- C2 counterexample: the same CSV submitted twice does not always yield
identical num_sold values. RandomSplitter is unseeded (service.py line 46),
so two calls may draw different training splits; here the first call's
split keeps both training rows (the input date gets categorical code 2)
while the second call's split keeps only the first row (the input date is
unseen, code 0), and the model output differs. -/
theorem predict_csv_not_idempotent_cex :
    (predict_csv wState cexStorage [0, 1] cexCsv).map (fun o => o.1.num_sold) ≠
      (predict_csv wState cexStorage [0] cexCsv).map (fun o => o.1.num_sold) := by
  decide

/-- C2 amended: submitting the same CSV twice yields identical num_sold
values whenever the two calls' random training splits fit the same
encoding (in particular whenever they draw the same split); the pipeline
has no other source of randomness at inference. -/
theorem predict_csv_deterministic_given_encoder (s : ServiceState) (st : Storage)
    (sp1 sp2 : List Nat) (csv : List String)
    (he : fitEncoder st sp1 = fitEncoder st sp2) :
    (predict_csv s st sp1 csv).map (fun o => o.1.num_sold) =
      (predict_csv s st sp2 csv).map (fun o => o.1.num_sold) := by
  unfold predict_csv preprocess
  rw [he]

/-- Witness for the amended C2: two distinct splits that select the same
training rows (and hence fit the same encoding) give identical results. -/
theorem predict_csv_deterministic_given_encoder_witness :
    (predict_csv wState cexStorage [0] cexCsv).map (fun o => o.1.num_sold) =
      (predict_csv wState cexStorage [0, 0] cexCsv).map (fun o => o.1.num_sold) :=
  predict_csv_deterministic_given_encoder wState cexStorage [0] [0, 0] cexCsv (by rfl)

/-- C3: for every input batch accepted by predict or predict_csv, the date
sequence of the result equals the date values of the submitted records,
unchanged and in the same order (the service returns the date strings of
the original rows verbatim). -/
theorem predict_date_roundtrip (s : ServiceState) (st : Storage)
    (split : List Nat) (data : List SalesRecord) (csv : List String)
    (records : List SalesRecord) (hp : parseCsv csv = some records) :
    (predict s st split data).1.date = data.map (·.date) ∧
      (predict_csv s st split csv).map (fun o => o.1.date) =
        some (records.map (·.date)) := by
  constructor
  · simp [predict, preprocess]
  · simp [predict_csv, hp, preprocess]

/-- Witness for C3 at a concrete batch and CSV. -/
theorem predict_date_roundtrip_witness :
    (predict wState wStorage [0, 1] wRecords).1.date = wRecords.map (·.date) ∧
      (predict_csv wState wStorage [0, 1] wCsv).map (fun o => o.1.date) =
        some (wRecords.map (·.date)) :=
  predict_date_roundtrip wState wStorage [0, 1] wRecords wCsv wRecords (by rfl)

/-- C4: predict on a single record (a one-row table) returns exactly one
num_sold value and exactly one date value. -/
theorem predict_single_record_shape (s : ServiceState) (st : Storage)
    (split : List Nat) (r : SalesRecord) :
    (predict s st split [r]).1.num_sold.length = 1 ∧
      (predict s st split [r]).1.date.length = 1 := by
  simp [predict, preprocess, boosterPredict]

/-- C5: a header-only CSV (zero data rows) whose header has the four
required columns yields empty num_sold and date sequences and no error
(the request succeeds). -/
theorem predict_csv_empty_csv (s : ServiceState) (st : Storage)
    (split : List Nat) (header : String)
    (h1 : dateCol ∈ splitComma header) (h2 : countryCol ∈ splitComma header)
    (h3 : storeCol ∈ splitComma header) (h4 : productCol ∈ splitComma header) :
    predict_csv s st split [header] =
      some ({ num_sold := [], date := [] }, s,
            [Effect.readUploadedCsv, Effect.readTrainCsv, Effect.readTestCsv]) := by
  simp [predict_csv, parseCsv, h1, h2, h3, h4, preprocess, boosterPredict]

/-- Witness for C5 at the canonical header line. -/
theorem predict_csv_empty_csv_witness :
    predict_csv wState wStorage [0] ["date,country,store,product"] =
      some ({ num_sold := [], date := [] }, wState,
            [Effect.readUploadedCsv, Effect.readTrainCsv, Effect.readTestCsv]) :=
  predict_csv_empty_csv wState wStorage [0] "date,country,store,product"
    (by decide) (by decide) (by decide) (by decide)

/-- C6: every invocation of predict and of predict_csv re-reads the
training corpus from storage during preprocessing: the read of
data/train.csv is among the effects of the preprocess step and hence of
every call to either endpoint (no caching of the fitted encoding between
calls: each call's effect list carries its own read). -/
theorem preprocess_rereads_training_data (s : ServiceState) (st : Storage)
    (split : List Nat) (data : List SalesRecord) (csv : List String)
    (out : PredictionResult × ServiceState × List Effect)
    (h : predict_csv s st split csv = some out) :
    Effect.readTrainCsv ∈ (preprocess st split data).2 ∧
      Effect.readTrainCsv ∈ (predict s st split data).2.2 ∧
      Effect.readTrainCsv ∈ out.2.2 := by
  refine ⟨by simp [preprocess], by simp [predict, preprocess], ?_⟩
  simp only [predict_csv] at h
  cases hp : parseCsv csv with
  | none => rw [hp] at h; cases h
  | some recs =>
    rw [hp] at h
    simp only [] at h
    injection h with h2
    subst h2
    simp [preprocess]

/-- Witness for C6 at a concrete call. -/
theorem preprocess_rereads_training_data_witness :
    Effect.readTrainCsv ∈ (preprocess wStorage [0, 1] wRecords).2 ∧
      Effect.readTrainCsv ∈ (predict wState wStorage [0, 1] wRecords).2.2 ∧
      Effect.readTrainCsv ∈
        (({ num_sold := [1, 2], date := ["2017-01-01", "2017-01-02"] }, wState,
          [Effect.readUploadedCsv, Effect.readTrainCsv, Effect.readTestCsv]) :
          PredictionResult × ServiceState × List Effect).2.2 :=
  preprocess_rereads_training_data wState wStorage [0, 1] wRecords wCsv _ (by rfl)

/-- C7: the model artifact is loaded once at service start (initService)
and never mutated afterwards: predict and predict_csv return the service
state unchanged, so the loaded model is identical before and after every
request. -/
theorem model_never_mutated (m : List Nat → Int) (s : ServiceState)
    (st : Storage) (split : List Nat) (data : List SalesRecord)
    (csv : List String) (out : PredictionResult × ServiceState × List Effect)
    (h : predict_csv s st split csv = some out) :
    (initService m).model = m ∧ (predict s st split data).2.1 = s ∧
      out.2.1 = s := by
  refine ⟨rfl, by simp [predict, preprocess], ?_⟩
  simp only [predict_csv] at h
  cases hp : parseCsv csv with
  | none => rw [hp] at h; cases h
  | some recs =>
    rw [hp] at h
    simp only [] at h
    injection h with h2
    subst h2
    rfl

/-- Witness for C7 at a concrete call. -/
theorem model_never_mutated_witness :
    (initService wModel).model = wModel ∧
      (predict wState wStorage [0, 1] wRecords).2.1 = wState ∧
      (({ num_sold := [1, 2], date := ["2017-01-01", "2017-01-02"] }, wState,
        [Effect.readUploadedCsv, Effect.readTrainCsv, Effect.readTestCsv]) :
        PredictionResult × ServiceState × List Effect).2.1 = wState :=
  model_never_mutated wModel wState wStorage [0, 1] wRecords wCsv _ (by rfl)

/-- C8: in the dashboard client, when the number of predictions returned
differs from the number of uploaded CSV rows, load_and_predict_data fills
the prediction column with the null marker for every row and returns the
input data instead of aborting. -/
theorem dashboard_row_mismatch_fills_null (preds : List (Option Int))
    (rows : List SalesRecord) (h : preds.length ≠ rows.length) :
    load_and_predict_data (ApiOutcome.ok (ParsedBody.jsonList preds)) rows =
      rows.map (fun r =>
        { date := r.date, country := r.country, store := r.store,
          product := r.product, predicted_sales := none }) := by
  simp [load_and_predict_data, h]

/-- Witness for C8: zero predictions against a one-row CSV. -/
theorem dashboard_row_mismatch_fills_null_witness :
    load_and_predict_data (ApiOutcome.ok (ParsedBody.jsonList [])) wRecords =
      wRecords.map (fun r =>
        { date := r.date, country := r.country, store := r.store,
          product := r.product, predicted_sales := none }) :=
  dashboard_row_mismatch_fills_null [] wRecords (by decide)

/-- C9: in the dashboard client, a response body that does not parse as
JSON, and one that parses to something other than the expected list shape,
both make load_and_predict_data return the empty DataFrame instead of
propagating a parse error. -/
theorem dashboard_malformed_json_empty (rows : List SalesRecord) :
    load_and_predict_data (ApiOutcome.ok ParsedBody.notJson) rows = [] ∧
      load_and_predict_data (ApiOutcome.ok ParsedBody.jsonNonList) rows = [] :=
  ⟨rfl, rfl⟩

/-- C10: clean_data normalizes an uploaded table whose cleaned columns
include date, country, store and product: column names are stripped and
lowercased, the row count and row order are unchanged, every date value is
reformatted to the YYYY-MM-DD form, and the country/store/product values
have newlines replaced by spaces and surrounding whitespace stripped. -/
theorem clean_data_normalizes (t : RawTable)
    (hd : dateCol ∈ t.cols.map colClean)
    (hc : countryCol ∈ t.cols.map colClean)
    (hs : storeCol ∈ t.cols.map colClean)
    (hq : productCol ∈ t.cols.map colClean) :
    ∃ u, clean_data t = some u ∧
      u.cols = t.cols.map colClean ∧
      u.rows.length = t.rows.length ∧
      ∀ i, i < t.rows.length →
        (u.rows.getD i defaultRaw).date =
            formatYMD (parseDate ((t.rows.getD i defaultRaw).date)) ∧
          (u.rows.getD i defaultRaw).country =
            myTrim (replaceNewline ((t.rows.getD i defaultRaw).country)) ∧
          (u.rows.getD i defaultRaw).store =
            myTrim (replaceNewline ((t.rows.getD i defaultRaw).store)) ∧
          (u.rows.getD i defaultRaw).product =
            myTrim (replaceNewline ((t.rows.getD i defaultRaw).product)) := by
  refine ⟨{ cols := t.cols.map colClean, rows := t.rows.map cleanedRow }, ?_, rfl, by simp, ?_⟩
  · simp [clean_data, hd, hc, hs, hq, cleanedRow, cleanStr]
  · intro i hi
    rw [getD_map_of_lt cleanedRow t.rows i hi defaultRaw defaultRaw]
    exact ⟨rfl, rfl, rfl, rfl⟩

/-- Witness for C10 at a concrete table with unnormalized column names, an
embedded newline, surrounding whitespace and an unpadded date. -/
theorem clean_data_normalizes_witness :
    ∃ u, clean_data wTable = some u ∧
      u.cols = wTable.cols.map colClean ∧
      u.rows.length = wTable.rows.length ∧
      ∀ i, i < wTable.rows.length →
        (u.rows.getD i defaultRaw).date =
            formatYMD (parseDate ((wTable.rows.getD i defaultRaw).date)) ∧
          (u.rows.getD i defaultRaw).country =
            myTrim (replaceNewline ((wTable.rows.getD i defaultRaw).country)) ∧
          (u.rows.getD i defaultRaw).store =
            myTrim (replaceNewline ((wTable.rows.getD i defaultRaw).store)) ∧
          (u.rows.getD i defaultRaw).product =
            myTrim (replaceNewline ((wTable.rows.getD i defaultRaw).product)) :=
  clean_data_normalizes wTable (by decide) (by decide) (by decide) (by decide)
